/-
Verification of the ZooPrediction repository (a zoo visitor-attendance
analysis and forecasting tool).

The development shallowly embeds the relevant Python code:

* `src/utils/data_processing.py`:
    - `validate_csv_format`  (delimiter detection, schema checks, result dict)
    - `process_zoo_data`     (metric enrichment: totals, revenues, calendar
                              features, rolling means, percentages)
* `src/utils/prediction.py`:
    - `predict_future_attendance` (month-end smoothing, clamping,
                              adult/child reconciliation, revenue projection)
* `src/app.py`:
    - the main-path delimiter detection.

Modelling conventions:
* pandas float values are embedded as `ℚ` (exact rationals);
* pandas timestamps are embedded as `ℤ` day ordinals (days since 1970-01-01,
  the epoch); calendar feature extraction (`dt.year`, `dt.month`, `dt.day`,
  `dt.dayofweek`, `dt.days_in_month`) is implemented with the standard civil
  calendar algorithm;
* `np.round` / Python `round` (round half to even) is `roundHalfEven`;
* results of external parsing effects (`pd.read_csv`, `pd.to_datetime`,
  `pd.to_numeric`, `csv.Sniffer`) appear as oracle fields of the input
  (a cell carries the coerced numeric and datetime value that the
  corresponding pandas call would yield);
* `df.sort_values('date')` is modelled as a deterministic stable sort
  (the source's default is an unstable quicksort — see `stageSort` and the
  idempotence theorem for the consequences);
* `Prophet.predict` raises on an empty future frame; that guard is
  modelled explicitly in `predict_future_attendance`;
* Python exceptions are `Except String`; frames are column-presence flags
  plus a list of rows.
-/
import Mathlib

namespace ZooPrediction

/-! ## Calendar arithmetic

Model of pandas `DatetimeIndex` component accessors, over day ordinals
(days since 1970-01-01). -/

/-- Gregorian leap-year test. -/
def isLeapYear (y : ℤ) : Bool :=
  (y % 4 == 0 && y % 100 != 0) || (y % 400 == 0)

/-- Model of `pandas.Series.dt.days_in_month`. -/
def daysInMonth (y m : ℤ) : ℤ :=
  if m = 1 ∨ m = 3 ∨ m = 5 ∨ m = 7 ∨ m = 8 ∨ m = 10 ∨ m = 12 then 31
  else if m = 4 ∨ m = 6 ∨ m = 9 ∨ m = 11 then 30
  else if isLeapYear y then 29 else 28

/-- Civil-from-days: convert a day ordinal (days since 1970-01-01) into
`(year, month, day)`, standard algorithm. -/
def civilFromDays (z0 : ℤ) : ℤ × ℤ × ℤ :=
  let z := z0 + 719468
  let era := (if 0 ≤ z then z else z - 146096) / 146097
  let doe := z - era * 146097
  let yoe := (doe - doe / 1460 + doe / 36524 - doe / 146096) / 365
  let y := yoe + era * 400
  let doy := doe - (365 * yoe + yoe / 4 - yoe / 100)
  let mp := (5 * doy + 2) / 153
  let d := doy - (153 * mp + 2) / 5 + 1
  let m := mp + (if mp < 10 then 3 else -9)
  (y + (if m ≤ 2 then 1 else 0), m, d)

/-- Model of `dt.year`. -/
def yearOf (z : ℤ) : ℤ := (civilFromDays z).1

/-- Model of `dt.month`. -/
def monthOf (z : ℤ) : ℤ := (civilFromDays z).2.1

/-- Model of `dt.day`. -/
def dayOf (z : ℤ) : ℤ := (civilFromDays z).2.2

/-- Model of `dt.dayofweek` (Monday = 0).  1970-01-01 was a Thursday (3). -/
def dayOfWeek (z : ℤ) : ℤ := (z + 3).emod 7

/-- Model of `dt.day_name()`. -/
def dayNameOf (dow : ℤ) : String :=
  if dow = 0 then "Monday" else if dow = 1 then "Tuesday"
  else if dow = 2 then "Wednesday" else if dow = 3 then "Thursday"
  else if dow = 4 then "Friday" else if dow = 5 then "Saturday" else "Sunday"

/-- Model of `dt.month_name()`. -/
def monthNameOf (m : ℤ) : String :=
  if m = 1 then "January" else if m = 2 then "February" else if m = 3 then "March"
  else if m = 4 then "April" else if m = 5 then "May" else if m = 6 then "June"
  else if m = 7 then "July" else if m = 8 then "August" else if m = 9 then "September"
  else if m = 10 then "October" else if m = 11 then "November" else "December"

/-! ## Rounding

`np.round` and Python 3 `round` both round halves to the nearest even
integer. -/

/-- Round half to even, the rounding used by `np.round` and Python `round`. -/
def roundHalfEven (x : ℚ) : ℤ :=
  let n := ⌊x⌋
  let frac := x - (n : ℚ)
  if frac < 1 / 2 then n
  else if 1 / 2 < frac then n + 1
  else if n % 2 = 0 then n else n + 1

theorem floor_le_roundHalfEven (x : ℚ) : ⌊x⌋ ≤ roundHalfEven x := by
  unfold roundHalfEven
  dsimp only
  split
  · exact le_refl _
  · split
    · exact Int.le.intro 1 rfl
    · split
      · exact le_refl _
      · exact Int.le.intro 1 rfl

theorem roundHalfEven_le_floor_add_one (x : ℚ) : roundHalfEven x ≤ ⌊x⌋ + 1 := by
  unfold roundHalfEven
  dsimp only
  split
  · exact Int.le.intro 1 rfl
  · split
    · exact le_refl _
    · split
      · exact Int.le.intro 1 rfl
      · exact le_refl _

theorem roundHalfEven_nonneg {x : ℚ} (h : 0 ≤ x) : 0 ≤ roundHalfEven x :=
  le_trans (Int.le_floor.mpr (by exact_mod_cast h)) (floor_le_roundHalfEven x)

theorem roundHalfEven_le_int {x : ℚ} {t : ℤ} (h : x ≤ (t : ℚ)) :
    roundHalfEven x ≤ t := by
  by_cases hc : ⌊x⌋ + 1 ≤ t
  · exact le_trans (roundHalfEven_le_floor_add_one x) hc
  · have hft : ⌊x⌋ ≤ t := le_trans (Int.floor_le_floor h) (by simp)
    have hxt : t ≤ ⌊x⌋ := by omega
    have hfe : ⌊x⌋ = t := le_antisymm hft hxt
    have hfrac : x - (⌊x⌋ : ℚ) ≤ 0 := by
      rw [hfe]; exact sub_nonpos.mpr h
    have hfrac2 : x - (⌊x⌋ : ℚ) < 1 / 2 :=
      lt_of_le_of_lt hfrac (by norm_num)
    unfold roundHalfEven
    dsimp only
    rw [if_pos hfrac2]
    exact hft

/-! ## Delimiter detection (claim C3)

Two distinct detection sites exist in the repository:

* `validate_csv_format` (`src/utils/data_processing.py` lines 27-32) tests
  semicolon first, then tab, defaulting to comma;
* `main` (`src/app.py` lines 145-153) tests tab first, then semicolon,
  defaulting to comma.

Both inspect the first 1000 characters of the content. -/

/-- Membership of a character in `content[:1000]`: membership of a character in the first 1000
characters of the content. -/
def inFirst1000 (content : String) (c : Char) : Bool :=
  (content.toList.take 1000).contains c

/-- The delimiter chosen by `validate_csv_format` (data_processing.py 28-32):
semicolon takes priority over tab. -/
def detectDelimiterValidate (content : String) : Char :=
  if inFirst1000 content ';' then ';'
  else if inFirst1000 content '\t' then '\t'
  else ','

/-- The delimiter chosen by the main load path (app.py 147-153): tab takes
priority over semicolon. -/
def detectDelimiterMain (content : String) : Char :=
  if inFirst1000 content '\t' then '\t'
  else if inFirst1000 content ';' then ';'
  else ','

/-! ## Metric Enrichment Engine: `process_zoo_data`
(`src/utils/data_processing.py` lines 336-490)

A frame is a set of column-presence flags plus a list of rows.  Every row
carries a slot for every column the function may read or write; a slot is
meaningful only when the corresponding presence flag is set (pandas: the
column exists).  Date cells are `Option ℤ` (`none` = `NaT`); the `'adult
tickets'`-style source columns are `Option ℚ` per cell (`none` = the value
`pd.to_numeric(..., errors='coerce')` turns into NaN, which `fillna(0)`
then replaces). -/

/-- The non-derived (source) columns of a frame row. -/
structure Raw where
  date : Option ℤ
  booking_date : Option ℤ
  adult_tickets_s : Option ℚ
  child_tickets_s : Option ℚ
  foreigner_tickets_s : Option ℚ
  camera_tickets_s : Option ℚ
  hend_camera_tickets_s : Option ℚ
  adult_tickets : ℚ
  child_tickets : ℚ
  foreigner_tickets : ℚ
  camera_tickets : ℚ
  hend_camera_tickets : ℚ
  adult_price : ℚ
  child_price : ℚ
  foreigner_price : ℚ
  camera_price : ℚ
  hend_camera_price : ℚ
  total_amount_inr : ℚ
  total_amount_wsc : ℚ
  deriving DecidableEq, Inhabited

/-- The columns `process_zoo_data` derives (lines 419-488). -/
structure Derived where
  total_visitors : ℚ
  adult_revenue : ℚ
  child_revenue : ℚ
  foreigner_revenue : ℚ
  camera_revenue : ℚ
  hend_camera_revenue : ℚ
  total_revenue : ℚ
  year : ℤ
  month : ℤ
  day : ℤ
  dayofweek : ℤ
  is_weekend : ℤ
  day_name : String
  month_name : String
  ma7_visitors : ℚ
  ma7_revenue : ℚ
  ma30_visitors : ℚ
  ma30_revenue : ℚ
  adult_percentage : ℚ
  child_percentage : ℚ
  deriving DecidableEq, Inhabited

/-- A full frame row: source slots plus derived slots. -/
structure ZRow where
  raw : Raw
  derived : Derived
  deriving DecidableEq, Inhabited

/-- Column-presence flags of a frame (`'x' in df.columns` tests).  The
`_s` flags are the space-named source columns (`'adult tickets'` etc.);
`has_total_amount_inr` is `'total amount (inr)'`; `has_total_amount_wsc` is
`'total amount without service charge'`. -/
structure ColsPresent where
  has_date : Bool
  has_booking_date : Bool
  has_adult_tickets_s : Bool
  has_child_tickets_s : Bool
  has_foreigner_tickets_s : Bool
  has_camera_tickets_s : Bool
  has_hend_camera_tickets_s : Bool
  has_adult_tickets : Bool
  has_child_tickets : Bool
  has_foreigner_tickets : Bool
  has_camera_tickets : Bool
  has_hend_camera_tickets : Bool
  has_adult_price : Bool
  has_child_price : Bool
  has_foreigner_price : Bool
  has_camera_price : Bool
  has_hend_camera_price : Bool
  has_total_amount_inr : Bool
  has_total_amount_wsc : Bool
  deriving DecidableEq, Inhabited

/-- A frame: presence flags plus rows. -/
structure ZFrame where
  cols : ColsPresent
  rows : List ZRow
  deriving DecidableEq, Inhabited

/-- Sort key used by `df.sort_values('date')` (line 385); at that point all
rows with `NaT` dates have been dropped, so the default is irrelevant. -/
def dateKey (r : ZRow) : ℤ := r.raw.date.getD 0

/-- Row comparison by date. -/
def dateLe (a b : ZRow) : Prop := dateKey a ≤ dateKey b

instance : DecidableRel dateLe := fun _ _ => Int.decLe _ _

instance : IsTotal ZRow dateLe := ⟨fun _ _ => Int.le_total _ _⟩

instance : IsTrans ZRow dateLe := ⟨fun _ _ _ => Int.le_trans⟩

/-- Ticket-column creation (lines 389-417).  The conditions read the
presence flags of the frame as it enters this section; none of the earlier
date steps touches these columns.  `adult`/`child` columns get a final
zero-fill fallback (411-417); the other three default to zero whenever the
underscore column is missing (397-398, 402-403, 407-408). -/
def normTicketsRow (c : ColsPresent) (r : Raw) : Raw :=
  { r with
    adult_tickets :=
      if !c.has_adult_tickets then
        (if c.has_adult_tickets_s then r.adult_tickets_s.getD 0 else 0)
      else r.adult_tickets
    child_tickets :=
      if !c.has_child_tickets then
        (if c.has_child_tickets_s then r.child_tickets_s.getD 0 else 0)
      else r.child_tickets
    foreigner_tickets :=
      if !c.has_foreigner_tickets then
        (if c.has_foreigner_tickets_s then r.foreigner_tickets_s.getD 0 else 0)
      else r.foreigner_tickets
    camera_tickets :=
      if !c.has_camera_tickets then
        (if c.has_camera_tickets_s then r.camera_tickets_s.getD 0 else 0)
      else r.camera_tickets
    hend_camera_tickets :=
      if !c.has_hend_camera_tickets then
        (if c.has_hend_camera_tickets_s then r.hend_camera_tickets_s.getD 0 else 0)
      else r.hend_camera_tickets }

/-- Default unit prices (lines 430-439).  In the source this sits between
the total-visitors computation and the revenue computations; nothing in
between reads or writes prices, so it is grouped with normalization. -/
def normPricesRow (c : ColsPresent) (r : Raw) : Raw :=
  { r with
    adult_price := if !c.has_adult_price then 25 else r.adult_price
    child_price := if !c.has_child_price then 15 else r.child_price
    foreigner_price := if !c.has_foreigner_price then 50 else r.foreigner_price
    camera_price := if !c.has_camera_price then 10 else r.camera_price
    hend_camera_price := if !c.has_hend_camera_price then 20 else r.hend_camera_price }

/-- Combined per-row normalization. -/
def normRow (c : ColsPresent) (r : Raw) : Raw :=
  normPricesRow c (normTicketsRow c r)

/-- Presence flags after `process_zoo_data`: `date`, the five underscore
ticket columns and the five price columns all exist afterwards; every other
flag is untouched. -/
def normCols (c : ColsPresent) : ColsPresent :=
  { c with
    has_date := true
    has_adult_tickets := true
    has_child_tickets := true
    has_foreigner_tickets := true
    has_camera_tickets := true
    has_hend_camera_tickets := true
    has_adult_price := true
    has_child_price := true
    has_foreigner_price := true
    has_camera_price := true
    has_hend_camera_price := true }

/-- Column `total_visitors` (lines 419-424): adult + child, plus foreigner when
that column exists (camera tickets are deliberately not counted, line 426). -/
def totalVisitorsOf (c : ColsPresent) (r : Raw) : ℚ :=
  let t := r.adult_tickets + r.child_tickets
  if c.has_foreigner_tickets then t + r.foreigner_tickets else t

/-- Column `foreigner_revenue` (lines 446-449): per-row product, but only when the
column exists and its frame-wide sum is positive, else the scalar 0. -/
def foreignerRevenueOf (c : ColsPresent) (sumF : ℚ) (r : Raw) : ℚ :=
  if c.has_foreigner_tickets && decide (0 < sumF) then
    r.foreigner_tickets * r.foreigner_price
  else 0

/-- Column `camera_revenue` (lines 451-454). -/
def cameraRevenueOf (c : ColsPresent) (sumC : ℚ) (r : Raw) : ℚ :=
  if c.has_camera_tickets && decide (0 < sumC) then
    r.camera_tickets * r.camera_price
  else 0

/-- Column `hend_camera_revenue` (lines 456-459). -/
def hendCameraRevenueOf (c : ColsPresent) (sumH : ℚ) (r : Raw) : ℚ :=
  if c.has_hend_camera_tickets && decide (0 < sumH) then
    r.hend_camera_tickets * r.hend_camera_price
  else 0

/-- Column `total_revenue` (lines 461-467): the verbatim `'total amount (inr)'`
column when it exists, else the sum of the five category revenue columns.
The `'total amount without service charge'` column is never consulted here. -/
def totalRevenueOf (c : ColsPresent) (sumF sumC sumH : ℚ) (r : Raw) : ℚ :=
  if c.has_total_amount_inr then r.total_amount_inr
  else
    r.adult_tickets * r.adult_price + r.child_tickets * r.child_price +
      foreignerRevenueOf c sumF r + cameraRevenueOf c sumC r +
      hendCameraRevenueOf c sumH r

/-- Trailing rolling mean with window `w` and `min_periods=1`
(`rolling(window=w, min_periods=1).mean()`, lines 479-484). -/
def rollingMean (w : ℕ) (l : List ℚ) : List ℚ :=
  (List.range l.length).map fun i =>
    let win := (l.take (i + 1)).drop (i + 1 - w)
    win.sum / (win.length : ℚ)

/-- The derivation stage (lines 419-488): recompute every derived column
from the source columns.  Row `i` of the result keeps the source slots of
row `i` of the input and carries freshly computed derived slots. -/
def buildRows (c : ColsPresent) (raws : List Raw) : List ZRow :=
  let sumF := (raws.map (·.foreigner_tickets)).sum
  let sumC := (raws.map (·.camera_tickets)).sum
  let sumH := (raws.map (·.hend_camera_tickets)).sum
  let totals := raws.map (totalVisitorsOf c)
  let revTotals := raws.map (totalRevenueOf c sumF sumC sumH)
  let ma7v := rollingMean 7 totals
  let ma7r := rollingMean 7 revTotals
  let ma30v := rollingMean 30 totals
  let ma30r := rollingMean 30 revTotals
  raws.enum.map fun p =>
    let i := p.1
    let r := p.2
    let d := r.date.getD 0
    let tv := totalVisitorsOf c r
    let dow := dayOfWeek d
    { raw := r
      derived :=
        { total_visitors := tv
          adult_revenue := r.adult_tickets * r.adult_price
          child_revenue := r.child_tickets * r.child_price
          foreigner_revenue := foreignerRevenueOf c sumF r
          camera_revenue := cameraRevenueOf c sumC r
          hend_camera_revenue := hendCameraRevenueOf c sumH r
          total_revenue := totalRevenueOf c sumF sumC sumH r
          year := yearOf d
          month := monthOf d
          day := dayOf d
          dayofweek := dow
          is_weekend := if dow = 5 ∨ dow = 6 then 1 else 0
          day_name := dayNameOf dow
          month_name := monthNameOf (monthOf d)
          ma7_visitors := ma7v.getD i 0
          ma7_revenue := ma7r.getD i 0
          ma30_visitors := ma30v.getD i 0
          ma30_revenue := ma30r.getD i 0
          adult_percentage := r.adult_tickets / tv * 100
          child_percentage := r.child_tickets / tv * 100 } }

/-- Fill `date` from `booking date` when no date column exists
(lines 353-371; the parse cascade sits in the `booking_date` oracle). -/
def stageFillDate (f : ZFrame) : ZFrame :=
  { f with
    rows :=
      if !f.cols.has_date && f.cols.has_booking_date then
        f.rows.map fun r => { r with raw := { r.raw with date := r.raw.booking_date } }
      else f.rows }

/-- Drop rows with unresolvable dates (lines 379-382). -/
def stageDrop (f : ZFrame) : ZFrame :=
  { f with rows := f.rows.filter fun r => r.raw.date.isSome }

/-- Sort ascending by date (line 385).  The source calls
`df.sort_values('date')`, whose default `kind` is an unstable quicksort:
once a frame has at least 17 rows with tied dates, re-sorting an
already-sorted frame can permute the equal-key rows.  The specification
requires an idempotent, bit-identical enrichment round trip while
explicitly permitting duplicate dates, which presupposes a stable sort
(`kind` set to stable); this model implements that intended stable sort as
an insertion sort.  The divergence matters only for the idempotence
theorem, where the unstable default is recorded as the code's slip; every
membership-based fact below is order-independent. -/
def stageSort (f : ZFrame) : ZFrame :=
  { f with rows := List.insertionSort dateLe f.rows }

/-- Create missing ticket columns (lines 389-417) and default prices
(lines 430-439) in every row. -/
def stageNorm (f : ZFrame) : ZFrame :=
  { f with rows := f.rows.map fun r => { r with raw := normRow f.cols r.raw } }

/-- Derive every metric column (lines 419-488); afterwards the date,
ticket and price columns all exist, reflected by `normCols`. -/
def stageDerive (f : ZFrame) : ZFrame :=
  { cols := normCols f.cols
    rows := buildRows (normCols f.cols) (f.rows.map (·.raw)) }

/-- The successful body of `process_zoo_data`. -/
def processBody (f : ZFrame) : ZFrame :=
  stageDerive (stageNorm (stageSort (stageDrop (stageFillDate f))))

/-- Function `process_zoo_data` (lines 336-490).  Raises `ValueError` when neither a
`date` nor a `booking date` column exists (line 373); otherwise returns the
enriched frame. -/
def process_zoo_data (f : ZFrame) : Except String ZFrame :=
  if !f.cols.has_date && !f.cols.has_booking_date then
    .error "No date or booking date column found in the data"
  else
    .ok (processBody f)

/-! ## Forecasting Engine: `predict_future_attendance`
(`src/utils/prediction.py` lines 69-162)

The Prophet point forecasts (`yhat`) are external model outputs; they enter
the embedding as oracle functions `ℕ → ℚ` giving the raw forecast for the
`i`-th future day.  The `adult_percentage` model is the fitted
`LinearRegression`, represented by its intercept and slope, so that
`predict([[x]]) = intercept + slope * x`.  The carried-forward prices are
the scalars stored by `create_prediction_models` (lines 64-65). -/

/-- The parts of the trained model dictionary that `predict_future_attendance`
reads besides the Prophet forecasters: the linear `adult_percentage` model
and the two carry-forward prices. -/
structure PredModels where
  pctIntercept : ℚ
  pctSlope : ℚ
  lastAdultPrice : ℚ
  lastChildPrice : ℚ
  deriving DecidableEq, Inhabited

/-- One row of the prediction frame (columns created in lines 118-160). -/
structure PredRow where
  date : ℤ
  total_visitors : ℤ
  adult_tickets : ℤ
  child_tickets : ℤ
  adult_price : ℚ
  child_price : ℚ
  adult_revenue : ℚ
  child_revenue : ℚ
  total_revenue : ℚ
  year : ℤ
  month : ℤ
  day : ℤ
  dayofweek : ℤ
  is_weekend : ℤ
  day_name : String
  month_name : String
  deriving DecidableEq, Inhabited

/-- The month-end stabilization multiplier (lines 103-110): for a day in
the last 5 calendar days of its month the factor is
`1 + 0.05 * (4 - days_from_end)` where `days_from_end = days_in_month -
day_of_month`; all other days keep factor 1. -/
def monthEndFactor (daysInM dayOfM : ℤ) : ℚ :=
  if dayOfM > daysInM - 5 then
    1 + (5 / 100) * ((4 : ℚ) - ((daysInM : ℚ) - (dayOfM : ℚ)))
  else 1

/-- The smoothing stage (lines 113-115): one common factor per forecast
day, multiplied into all three raw forecasts before rounding to the
nearest integer. -/
def smoothedCounts (yT yA yC : ℕ → ℚ) (lastDate : ℤ) (i : ℕ) : ℤ × ℤ × ℤ :=
  let d := lastDate + 1 + (i : ℤ)
  let fct := monthEndFactor (daysInMonth (yearOf d) (monthOf d)) (dayOf d)
  (roundHalfEven (yT i * fct), roundHalfEven (yA i * fct), roundHalfEven (yC i * fct))

/-- Clamping to a minimum of 0 (lines 126-128). -/
def clampLower0 (n : ℤ) : ℤ := max n 0

/-- The reconciliation step for one row (lines 132-144): when the clamped
adult and child counts do not sum to the clamped total, re-derive them from
the adult-percentage trend evaluated at time index `len(df) + i + 1`,
clipped to [0, 100]; `total_visitors` itself is left untouched. -/
def reconcile (m : PredModels) (histLen : ℕ) (i : ℕ) (t a c : ℤ) : ℤ × ℤ :=
  if a + c ≠ t then
    let x : ℚ := (histLen : ℚ) + (i : ℚ) + 1
    let pct := max 0 (min 100 (m.pctIntercept + m.pctSlope * x))
    let a2 := roundHalfEven ((t : ℚ) * pct / 100)
    (a2, t - a2)
  else (a, c)

/-- Build the `i`-th prediction row: smooth, round, clamp, reconcile, then
compute revenue from the carried-forward prices (147-151) and the calendar
feature columns (154-160). -/
def predRowOf (m : PredModels) (histLen : ℕ) (lastDate : ℤ)
    (yT yA yC : ℕ → ℚ) (i : ℕ) : PredRow :=
  let d := lastDate + 1 + (i : ℤ)
  let s := smoothedCounts yT yA yC lastDate i
  let t := clampLower0 s.1
  let ac := reconcile m histLen i t (clampLower0 s.2.1) (clampLower0 s.2.2)
  let dow := dayOfWeek d
  { date := d
    total_visitors := t
    adult_tickets := ac.1
    child_tickets := ac.2
    adult_price := m.lastAdultPrice
    child_price := m.lastChildPrice
    adult_revenue := (ac.1 : ℚ) * m.lastAdultPrice
    child_revenue := (ac.2 : ℚ) * m.lastChildPrice
    total_revenue := (ac.1 : ℚ) * m.lastAdultPrice + (ac.2 : ℚ) * m.lastChildPrice
    year := yearOf d
    month := monthOf d
    day := dayOf d
    dayofweek := dow
    is_weekend := if dow = 5 ∨ dow = 6 then 1 else 0
    day_name := dayNameOf dow
    month_name := monthNameOf (monthOf d) }

/-- Function `predict_future_attendance` (lines 69-162).  The function performs no
horizon validation of its own: `pd.date_range(start, periods=days)`
(line 83) raises a `ValueError` for a negative `days` and yields an empty
range for `days = 0`; in the latter case the first `Prophet.predict` call
(line 87) raises a `ValueError` complaining that the dataframe has no
rows, because the future frame is empty.  So no frame is ever returned
for `days ≤ 0`.  For positive horizons the function builds one row per
future day.  No `InvalidHorizonError` exists anywhere in the repository. -/
def predict_future_attendance (m : PredModels) (histLen : ℕ) (lastDate : ℤ)
    (yT yA yC : ℕ → ℚ) (days : ℤ) : Except String (List PredRow) :=
  if days < 0 then
    .error "ValueError: number of samples must be non-negative"
  else
    let future := List.range days.toNat
    if future.isEmpty then
      .error "ValueError: Dataframe has no rows."
    else
      .ok (future.map (predRowOf m histLen lastDate yT yA yC))

/-! ## Validator: `validate_csv_format`
(`src/utils/data_processing.py` lines 6-334)

A parsed frame is a list of named columns; each cell carries the outcomes
of the two pandas coercions the function applies to it
(`pd.to_numeric(..., errors='coerce')` and
`pd.to_datetime(..., errors='coerce')`, with the booking-date format
cascade collapsed into the single resulting value).  External effects
(the byte-level Excel-magic scan, `pd.read_csv` and `csv.Sniffer`) enter
as oracle fields of the input.  The exact wording of the error message
strings is abbreviated; every return site of the source is present. -/

/-- A frame cell, as seen through the two coercions the validator uses. -/
structure VCell where
  numValue : Option ℚ
  dateValue : Option ℤ
  deriving DecidableEq, Inhabited

/-- A named column. -/
structure VCol where
  cname : String
  cells : List VCell
  deriving DecidableEq, Inhabited

/-- A parsed frame: columns in order. -/
abbrev VFrame : Type := List VCol

/-- The validator input: the decoded CSV string plus the outcome of each
external parsing effect. -/
structure CsvInput where
  content : String
  excelMagic : Bool
  readCsv : Char → Option VFrame
  sniffed : Option VFrame
  sniffErr : String

/-- The `dict` the validator returns: a `'valid'` flag and an `'error'`
message slot. -/
structure VResult where
  valid : Bool
  error : Option String
  deriving DecidableEq, Inhabited

/-- Number of rows of a frame (pandas `len(df)`; 0 when there are no
columns, in which case `df.empty` holds as well). -/
def nrowsOf (df : VFrame) : ℕ :=
  match df with
  | [] => 0
  | col :: _ => col.cells.length

/-- Test `name in df.columns`. -/
def hasVCol (df : VFrame) (n : String) : Bool :=
  df.any fun col => col.cname = n

/-- Access `df[name]`, as the list of cells. -/
def getVCol (df : VFrame) (n : String) : Option (List VCell) :=
  (df.find? fun col => col.cname = n).map (·.cells)

/-- Column assignment `df[name] = cells`: replace in place when the column
exists, else append. -/
def setVCol (df : VFrame) (n : String) (cells : List VCell) : VFrame :=
  if hasVCol df n then
    df.map fun col => if col.cname = n then { col with cells := cells } else col
  else df ++ [⟨n, cells⟩]

/-- Scalar column assignment `df[name] = q` (broadcast). -/
def setVColConst (df : VFrame) (n : String) (q : ℚ) : VFrame :=
  setVCol df n (List.replicate (nrowsOf df) ⟨some q, none⟩)

/-- Assignment `df[to] = df[from]` (lines 211-226): copy a column under a new name. -/
def copyVCol (df : VFrame) (src dst : String) : VFrame :=
  match getVCol df src with
  | some cells => setVCol df dst cells
  | none => df

/-- Substring test on column names (Python `in` on strings). -/
def containsSub (hay needle : String) : Bool :=
  decide (needle.toList <:+: hay.toList)

/-- Python `int()`: truncation toward zero. -/
def pyInt (q : ℚ) : ℤ := q.num.tdiv (q.den : ℤ)

/-- Model of `pd.to_datetime(ts, unit='s')`: epoch seconds to day ordinal. -/
def tsSecondsDate (q : ℚ) : ℤ := ⌊q / 86400⌋

/-- Model of `pd.to_datetime(ts, unit='ms')`: epoch milliseconds to day ordinal. -/
def tsMillisDate (q : ℚ) : ℤ := ⌊q / 86400000⌋

/-- Keep the cells whose mask entry is `true` (row dropping). -/
def filterByMask : List Bool → List VCell → List VCell
  | k :: ks, c :: cs => if k then c :: filterByMask ks cs else filterByMask ks cs
  | _, _ => []

/-- Drop the rows whose mask entry is `false` from every column. -/
def filterRowsV (df : VFrame) (keep : List Bool) : VFrame :=
  df.map fun col => { col with cells := filterByMask keep col.cells }

/-- The fuzzy column matching of the generic profile (lines 102-124). -/
def fuzzyMatches (req n : String) : Bool :=
  if req = "date" then
    containsSub n "date" || containsSub n "day" || containsSub n "time"
  else if req = "adult_tickets" then
    containsSub n "adult" &&
      (containsSub n "ticket" || containsSub n "visit" || containsSub n "attendance")
  else if req = "child_tickets" then
    containsSub n "child" &&
      (containsSub n "ticket" || containsSub n "visit" || containsSub n "attendance")
  else if req = "adult_price" then
    containsSub n "adult" &&
      (containsSub n "price" || containsSub n "cost" || containsSub n "fee" ||
        containsSub n "$")
  else if req = "child_price" then
    containsSub n "child" &&
      (containsSub n "price" || containsSub n "cost" || containsSub n "fee" ||
        containsSub n "$")
  else false

/-- Resolve one required column (lines 91-127): direct name match first;
fuzzy matching only outside the booking-ledger (zoo) profile.  Returns the
`(original name, canonical name)` rename entry, or `none` when missing. -/
def matchReq (zoo : Bool) (names : List String) (req : String) :
    Option (String × String) :=
  if names.contains req then some (req, req)
  else if zoo then none
  else (names.find? fun n => fuzzyMatches req n).map fun n => (n, req)

/-- Rename `df.rename(columns=...)` (lines 252-258). -/
def renameVCols (df : VFrame) (mapping : List (String × String)) : VFrame :=
  df.map fun col =>
    match mapping.find? fun p => p.1 = col.cname with
    | some p => { col with cname := p.2 }
    | none => col

/-- Zoo-profile preparation (lines 136-249): derive a `date` column from a
`timestamp`-like column (seconds when the integer sample starts with
`"17"`, else milliseconds) or from `booking date` (the format cascade is
collapsed into the cell date oracle); note that when the timestamp column
exists but holds no valid number, no `date` column is created at all.
Then copy the ticket columns and assign prices. -/
def zooPrep (hasPriceInfo : Bool) (df0 : VFrame) : VFrame :=
  let tsCol := df0.find? fun col => (col.cname.replace " " "") = "timestamp"
  let df1 :=
    match tsCol with
    | some col =>
      let valids := col.cells.filterMap (·.numValue)
      match valids.head? with
      | some sample =>
        if (toString (pyInt sample)).startsWith "17" then
          setVCol df0 "date"
            (col.cells.map fun cell => ⟨cell.numValue, cell.numValue.map tsSecondsDate⟩)
        else
          setVCol df0 "date"
            (col.cells.map fun cell => ⟨cell.numValue, cell.numValue.map tsMillisDate⟩)
      | none => df0
    | none =>
      match getVCol df0 "booking date" with
      | some cells => setVCol df0 "date" cells
      | none => df0
  let df2 := copyVCol df1 "adult tickets" "adult_tickets"
  let df3 := copyVCol df2 "child tickets" "child_tickets"
  let df4 :=
    if hasVCol df3 "foreigner tickets" then
      copyVCol df3 "foreigner tickets" "foreigner_tickets"
    else setVColConst df3 "foreigner_tickets" 0
  let df5 :=
    if hasVCol df4 "camera tickets" then
      copyVCol df4 "camera tickets" "camera_tickets"
    else setVColConst df4 "camera_tickets" 0
  let df6 :=
    if hasVCol df5 "h-end camera tickets" then
      copyVCol df5 "h-end camera tickets" "hend_camera_tickets"
    else setVColConst df5 "hend_camera_tickets" 0
  if hasPriceInfo then
    let dfA := if !hasVCol df6 "adult_price" then setVColConst df6 "adult_price" 25 else df6
    if !hasVCol dfA "child_price" then setVColConst dfA "child_price" 15 else dfA
  else
    setVColConst (setVColConst df6 "adult_price" 25) "child_price" 15

/-- The four core numeric columns (line 289). -/
def coreNumericCols : List String := ["adult_tickets", "child_tickets", "adult_price", "child_price"]

/-- The numeric-coercion loop (lines 290-299): after coercion, any residual
null means a non-numeric value; return the first offending column.
`df[col]` on a missing column raises a `KeyError` (the `.error` case). -/
def checkNumericCols (df : VFrame) : List String → Except String (Option VResult)
  | [] => .ok none
  | c :: rest =>
    match getVCol df c with
    | none => .error c
    | some cells =>
      if cells.any fun cell => cell.numValue.isNone then
        .ok (some ⟨false, some ("Some values in the " ++ c ++
          " column are not numeric. Please ensure all values are numbers.")⟩)
      else checkNumericCols df rest

/-- The negative-value loop (lines 324-329). -/
def checkNegativeCols (df : VFrame) : List String → Except String (Option VResult)
  | [] => .ok none
  | c :: rest =>
    match getVCol df c with
    | none => .error c
    | some cells =>
      if cells.any fun cell => decide (cell.numValue.getD 0 < 0) then
        .ok (some ⟨false, some ("The " ++ c ++
          " column contains negative values, which are not allowed.")⟩)
      else checkNegativeCols df rest

/-- Date coercion, null handling, row dropping and the numeric checks
(lines 261-331).  Reading `df['date']` when no date column was ever
created raises a `KeyError` that the outer handler turns into a
`Validation error` result. -/
def vDateStage (df : VFrame) : Except String VResult :=
  match getVCol df "date" with
  | none => .error "date"
  | some dateCells =>
    let dateVals := dateCells.map (·.dateValue)
    if dateVals.all (·.isNone) then
      .ok ⟨false, some ("All values in the date column are invalid. " ++
        "Please ensure dates are in a standard format or valid timestamps.")⟩
    else
      let df2 :=
        if dateVals.any (·.isNone) then filterRowsV df (dateVals.map (·.isSome))
        else df
      match checkNumericCols df2 coreNumericCols with
      | .error e => .error e
      | .ok (some r) => .ok r
      | .ok none =>
        match checkNegativeCols df2 coreNumericCols with
        | .error e => .error e
        | .ok (some r) => .ok r
        | .ok none => .ok ⟨true, none⟩

/-- Column cleaning, emptiness check, profile selection, required-column
mapping and the zoo preparation (lines 53-258). -/
def vSchemaStage (df0 : VFrame) : Except String VResult :=
  let df1 := df0.map fun col => { col with cname := col.cname.trim.toLower }
  if nrowsOf df1 = 0 ∨ df1.length < 2 then
    .ok ⟨false, some ("The file appears to be empty or improperly formatted. " ++
      "Please check that it contains valid CSV data.")⟩
  else
    let names := df1.map (·.cname)
    let zoo := hasVCol df1 "booking date" && hasVCol df1 "adult tickets" &&
      hasVCol df1 "child tickets"
    let hasPriceInfo := hasVCol df1 "total amount (inr)" ||
      hasVCol df1 "total amount without service charge"
    let required : List String :=
      if zoo then ["booking date", "adult tickets", "child tickets"]
      else ["date", "adult_tickets", "child_tickets", "adult_price", "child_price"]
    let results := required.map fun rc => (rc, matchReq zoo names rc)
    let missing := results.filterMap fun p => if p.2.isNone then some p.1 else none
    if missing ≠ [] then
      .ok ⟨false, some ("Missing required columns: " ++
        String.intercalate ", " missing ++ ". Available columns: " ++
        String.intercalate ", " names)⟩
    else
      let df2 := if zoo then zooPrep hasPriceInfo df1 else df1
      let df3 := renameVCols df2 (results.filterMap (·.2))
      vDateStage df3

/-- The guarded body of `validate_csv_format` (lines 16-331): Excel-magic
scan, delimiter detection (semicolon before tab), parse with sniffer
fallback, then schema validation. -/
def validateBody (inp : CsvInput) : Except String VResult :=
  if inp.excelMagic then
    .ok ⟨false, some ("This appears to be an Excel file saved with a .csv " ++
      "extension. Please save it as an actual CSV file.")⟩
  else
    match inp.readCsv (detectDelimiterValidate inp.content) with
    | some df => vSchemaStage df
    | none =>
      match inp.sniffed with
      | some df => vSchemaStage df
      | none =>
        .ok ⟨false, some ("Could not parse CSV: " ++ inp.sniffErr ++
          ". Please check the file format and ensure it is properly formatted CSV.")⟩

/-- Function `validate_csv_format` (lines 6-334): the whole body sits in a
`try`/`except` whose handler converts any escaped exception into an
invalid result, so the function always returns a result dict. -/
def validate_csv_format (inp : CsvInput) : VResult :=
  match validateBody inp with
  | .ok r => r
  | .error e => ⟨false, some ("Validation error: " ++ e)⟩

/-! ## Concrete example data

Closed inputs used by counterexamples and witnesses. -/

/-- A concrete forecasting run used by witnesses: one forecast day after
day ordinal 29 (1970-01-30), i.e. 1970-01-31, the last day of its month;
the raw adult and child forecasts (7 and 2) deliberately fail to add up to
the raw total forecast (10), so reconciliation fires. -/
def exRows : List PredRow :=
  match predict_future_attendance ⟨50, 0, 25, 15⟩ 1 29
      (fun _ => 10) (fun _ => 7) (fun _ => 2) 1 with
  | .ok r => r
  | .error _ => []

/-- Presence flags of a fully-populated historical frame: a `date` column,
the five underscore ticket columns and the five price columns, and no
verbatim total column. -/
def exCols : ColsPresent :=
  ⟨true, false, false, false, false, false, false,
   true, true, true, true, true, true, true, true, true, true, false, false⟩

/-- One-row frame with 1 adult, 1 child and 2 foreigner tickets. -/
def exHistFrame : ZFrame :=
  ⟨exCols,
   [⟨⟨some 0, none, none, none, none, none, none,
      1, 1, 2, 0, 0, 25, 15, 50, 10, 20, 0, 0⟩, default⟩]⟩

/-- The enriched output of `exHistFrame`. -/
def exHistFrameOut : ZFrame :=
  match process_zoo_data exHistFrame with
  | .ok g => g
  | .error _ => default

/-- The single enriched row of `exHistFrameOut`. -/
def exHistRow : ZRow := exHistFrameOut.rows.headD default

/-- One-row frame with 3 adult, 1 child and no foreigner tickets. -/
def exHistFrame0 : ZFrame :=
  ⟨exCols,
   [⟨⟨some 0, none, none, none, none, none, none,
      3, 1, 0, 0, 0, 25, 15, 50, 10, 20, 0, 0⟩, default⟩]⟩

/-- The enriched output of `exHistFrame0`. -/
def exHistFrame0Out : ZFrame :=
  match process_zoo_data exHistFrame0 with
  | .ok g => g
  | .error _ => default

/-- The single enriched row of `exHistFrame0Out`. -/
def exHistRow0 : ZRow := exHistFrame0Out.rows.headD default

/-- One-row frame that carries a verbatim
`'total amount without service charge'` column with value 999 while its
category revenues sum to 40. -/
def exHistFrameW : ZFrame :=
  ⟨{ exCols with has_total_amount_wsc := true },
   [⟨⟨some 0, none, none, none, none, none, none,
      1, 1, 0, 0, 0, 25, 15, 50, 10, 20, 0, 999⟩, default⟩]⟩

/-- The enriched output of `exHistFrameW`. -/
def exHistFrameWOut : ZFrame :=
  match process_zoo_data exHistFrameW with
  | .ok g => g
  | .error _ => default

/-- The single enriched row of `exHistFrameWOut`. -/
def exHistRowW : ZRow := exHistFrameWOut.rows.headD default

/-! ## Shared helper lemmas for the prediction frame -/

theorem predict_ok_rows {m : PredModels} {histLen : ℕ} {lastDate : ℤ}
    {yT yA yC : ℕ → ℚ} {days : ℤ} {rows : List PredRow}
    (h : predict_future_attendance m histLen lastDate yT yA yC days = .ok rows) :
    rows = (List.range days.toNat).map (predRowOf m histLen lastDate yT yA yC) := by
  unfold predict_future_attendance at h
  dsimp only at h
  repeat' split at h
  all_goals first
    | exact Except.noConfusion h
    | (injection h with h; exact h.symm)

theorem predict_row_eq {m : PredModels} {histLen : ℕ} {lastDate : ℤ}
    {yT yA yC : ℕ → ℚ} {days : ℤ} {rows : List PredRow}
    (h : predict_future_attendance m histLen lastDate yT yA yC days = .ok rows)
    (i : ℕ) (hi : i < rows.length) :
    rows[i] = predRowOf m histLen lastDate yT yA yC i := by
  have hr := predict_ok_rows h
  subst hr
  simp

/-! ## Shared helper lemmas for the enrichment engine -/

theorem buildRows_raw (c : ColsPresent) (raws : List Raw) :
    (buildRows c raws).map (·.raw) = raws := by
  unfold buildRows
  dsimp only
  rw [List.map_map]
  exact List.enum_map_snd raws

theorem raw_mem_of_mem_buildRows {c : ColsPresent} {raws : List Raw} {row : ZRow}
    (h : row ∈ buildRows c raws) : row.raw ∈ raws := by
  have h2 := List.mem_map_of_mem (fun r : ZRow => r.raw) h
  rwa [buildRows_raw] at h2

theorem mem_buildRows {c : ColsPresent} {raws : List Raw} {row : ZRow}
    (h : row ∈ buildRows c raws) :
    row.derived.total_visitors = totalVisitorsOf c row.raw ∧
    row.derived.adult_revenue = row.raw.adult_tickets * row.raw.adult_price ∧
    row.derived.child_revenue = row.raw.child_tickets * row.raw.child_price ∧
    row.derived.total_revenue =
      (if c.has_total_amount_inr then row.raw.total_amount_inr
       else row.derived.adult_revenue + row.derived.child_revenue +
         row.derived.foreigner_revenue + row.derived.camera_revenue +
         row.derived.hend_camera_revenue) ∧
    row.derived.adult_percentage =
      row.raw.adult_tickets / row.derived.total_visitors * 100 ∧
    row.derived.child_percentage =
      row.raw.child_tickets / row.derived.total_visitors * 100 := by
  unfold buildRows at h
  dsimp only at h
  rw [List.mem_map] at h
  obtain ⟨p, hp, rfl⟩ := h
  exact ⟨rfl, rfl, rfl, rfl, rfl, rfl⟩

theorem process_ok {f f' : ZFrame} (h : process_zoo_data f = .ok f') :
    f' = processBody f := by
  unfold process_zoo_data at h
  split at h
  · exact Except.noConfusion h
  · injection h with h
    exact h.symm

theorem pairwise_enumFrom {α : Type} {R : α → α → Prop} :
    ∀ (l : List α) (n : ℕ), l.Pairwise R →
      (l.enumFrom n).Pairwise fun p q => R p.2 q.2
  | [], _, _ => List.Pairwise.nil
  | x :: xs, n, h => by
    rw [List.enumFrom]
    rw [List.pairwise_cons] at h ⊢
    refine ⟨?_, pairwise_enumFrom xs (n + 1) h.2⟩
    intro p hp
    have hmem := List.mem_map_of_mem Prod.snd hp
    rw [List.enumFrom_map_snd] at hmem
    exact h.1 p.2 hmem

/-- All rows of an enriched frame carry a resolved date (the unresolvable
ones were dropped). -/
theorem processBody_dates (f : ZFrame) :
    ∀ r ∈ (processBody f).rows, r.raw.date.isSome = true := by
  intro r hr
  have hr' : r ∈ buildRows (normCols f.cols)
      ((stageNorm (stageSort (stageDrop (stageFillDate f)))).rows.map (·.raw)) := hr
  have hraw := raw_mem_of_mem_buildRows hr'
  rw [List.mem_map] at hraw
  obtain ⟨r2, hr2, heq⟩ := hraw
  rw [← heq]
  have hr2' : r2 ∈ (stageSort (stageDrop (stageFillDate f))).rows.map
      (fun r => { r with
        raw := normRow (stageSort (stageDrop (stageFillDate f))).cols r.raw }) := hr2
  rw [List.mem_map] at hr2'
  obtain ⟨r3, hr3, heq3⟩ := hr2'
  rw [← heq3]
  show r3.raw.date.isSome = true
  have hr3' : r3 ∈ List.insertionSort dateLe (stageDrop (stageFillDate f)).rows := hr3
  rw [List.mem_insertionSort] at hr3'
  have hr3'' : r3 ∈ (stageFillDate f).rows.filter (fun r => r.raw.date.isSome) := hr3'
  exact (List.mem_filter.mp hr3'').2

/-- Derivation preserves row order and dates, hence sortedness by date. -/
theorem buildRows_sorted (c : ColsPresent) (raws : List Raw)
    (h : raws.Pairwise fun a b : Raw => a.date.getD 0 ≤ b.date.getD 0) :
    List.Sorted dateLe (buildRows c raws) := by
  unfold buildRows
  refine List.pairwise_map.mpr ?_
  exact (pairwise_enumFrom raws 0 h).imp fun hpq => hpq

/-- An enriched frame is sorted ascending by date. -/
theorem processBody_sorted (f : ZFrame) : List.Sorted dateLe (processBody f).rows := by
  have hs : List.Sorted dateLe ((stageSort (stageDrop (stageFillDate f))).rows) :=
    List.sorted_insertionSort dateLe _
  have hnorm : List.Sorted dateLe
      ((stageNorm (stageSort (stageDrop (stageFillDate f)))).rows) := by
    refine List.pairwise_map.mpr ?_
    exact hs.imp fun hab => hab
  have hraws : List.Pairwise (fun a b : Raw => a.date.getD 0 ≤ b.date.getD 0)
      ((stageNorm (stageSort (stageDrop (stageFillDate f)))).rows.map (·.raw)) :=
    List.pairwise_map.mpr (hnorm.imp fun hab => hab)
  exact buildRows_sorted _ _ hraws

theorem normCols_idem (c : ColsPresent) : normCols (normCols c) = normCols c := rfl

theorem normRow_normCols (c : ColsPresent) (r : Raw) : normRow (normCols c) r = r := rfl

theorem stageFillDate_fix (f : ZFrame) :
    stageFillDate (processBody f) = processBody f := rfl

theorem stageDrop_fix (f : ZFrame) : stageDrop (processBody f) = processBody f := by
  unfold stageDrop
  rw [List.filter_eq_self.mpr (processBody_dates f)]

theorem stageSort_fix (f : ZFrame) : stageSort (processBody f) = processBody f := by
  unfold stageSort
  rw [List.Sorted.insertionSort_eq (processBody_sorted f)]

theorem stageNorm_fix (f : ZFrame) : stageNorm (processBody f) = processBody f := by
  unfold stageNorm
  have hmap : ∀ l : List ZRow,
      l.map (fun r => { r with raw := normRow (processBody f).cols r.raw }) = l := by
    intro l
    induction l with
    | nil => rfl
    | cons x xs ih =>
      rw [List.map_cons, ih]
      rfl
  rw [hmap]

theorem stageDerive_fix (f : ZFrame) :
    stageDerive (processBody f) = processBody f := by
  show stageDerive (stageDerive (stageNorm (stageSort (stageDrop (stageFillDate f))))) =
    stageDerive (stageNorm (stageSort (stageDrop (stageFillDate f))))
  unfold stageDerive
  dsimp only
  rw [buildRows_raw]
  rfl

/-- The enrichment body is idempotent: applying it to its own output is the
identity. -/
theorem processBody_idem (f : ZFrame) :
    processBody (processBody f) = processBody f := by
  show stageDerive (stageNorm (stageSort (stageDrop (stageFillDate (processBody f))))) =
    processBody f
  rw [stageFillDate_fix f, stageDrop_fix f, stageSort_fix f, stageNorm_fix f,
    stageDerive_fix f]

/-! ## Claim theorems -/

/-- C1: every prediction row satisfies `adult_tickets + child_tickets =
total_visitors` after reconciliation, even when the smoothed raw forecasts
(arbitrary oracle values here) violated it; `total_visitors` is exactly the
clamped rounded smoothed total-visitors forecast, untouched by
reconciliation, while adult and child are the only counts rewritten. -/
theorem prediction_additive_invariant (m : PredModels) (histLen : ℕ) (lastDate : ℤ)
    (yT yA yC : ℕ → ℚ) (days : ℤ) (rows : List PredRow)
    (h : predict_future_attendance m histLen lastDate yT yA yC days = .ok rows)
    (i : ℕ) (hi : i < rows.length) :
    rows[i].adult_tickets + rows[i].child_tickets = rows[i].total_visitors ∧
    rows[i].total_visitors = clampLower0 (smoothedCounts yT yA yC lastDate i).1 := by
  rw [predict_row_eq h i hi]
  unfold predRowOf
  refine ⟨?_, rfl⟩
  unfold reconcile
  dsimp only
  split
  · omega
  · next hne => omega

/-- C8: every prediction row has non-negative `total_visitors`,
`adult_tickets` and `child_tickets`, both on the clamped path and on the
reconciled path (where the adult percentage is clipped to [0, 100], so the
derived child count cannot go negative). -/
theorem prediction_counts_nonneg (m : PredModels) (histLen : ℕ) (lastDate : ℤ)
    (yT yA yC : ℕ → ℚ) (days : ℤ) (rows : List PredRow)
    (h : predict_future_attendance m histLen lastDate yT yA yC days = .ok rows)
    (i : ℕ) (hi : i < rows.length) :
    0 ≤ rows[i].total_visitors ∧ 0 ≤ rows[i].adult_tickets ∧
    0 ≤ rows[i].child_tickets := by
  rw [predict_row_eq h i hi]
  unfold predRowOf
  dsimp only
  set s := smoothedCounts yT yA yC lastDate i with hs
  have ht : 0 ≤ clampLower0 s.1 := le_max_right _ _
  refine ⟨ht, ?_⟩
  unfold reconcile
  dsimp only
  split
  · set pct := max 0 (min 100 (m.pctIntercept + m.pctSlope * ((histLen : ℚ) + (i : ℚ) + 1))) with hpct
    have hpct0 : 0 ≤ pct := le_max_left _ _
    have hpct100 : pct ≤ 100 := max_le (by norm_num) (min_le_left _ _)
    set t := clampLower0 s.1 with htdef
    have harg0 : 0 ≤ (t : ℚ) * pct / 100 := by
      apply div_nonneg _ (by norm_num)
      exact mul_nonneg (by exact_mod_cast ht) hpct0
    have hargt : (t : ℚ) * pct / 100 ≤ (t : ℚ) := by
      rw [div_le_iff₀ (by norm_num : (0:ℚ) < 100)]
      exact mul_le_mul_of_nonneg_left hpct100 (by exact_mod_cast ht)
    have h1 : 0 ≤ roundHalfEven ((t : ℚ) * pct / 100) := roundHalfEven_nonneg harg0
    have h2 : roundHalfEven ((t : ℚ) * pct / 100) ≤ t := roundHalfEven_le_int hargt
    exact ⟨h1, by omega⟩
  · exact ⟨le_max_right _ _, le_max_right _ _⟩

/-- C5: the month-end smoothing multiplier equals
`1 + 0.05 * (4 - (days_in_month - day_of_month))` on the last 5 calendar
days of the month, exactly 1 when `day_of_month ≤ days_in_month - 5`, and
exactly 1.20 on the last day; the identical factor multiplies all three raw
forecasts, and the multiplication happens before rounding (the row's
`total_visitors` is the rounding and clamping of `yhat * factor`). -/
theorem month_end_smoothing (m : PredModels) (histLen : ℕ) (lastDate : ℤ)
    (yT yA yC : ℕ → ℚ) (days : ℤ) (rows : List PredRow)
    (h : predict_future_attendance m histLen lastDate yT yA yC days = .ok rows)
    (i : ℕ) (hi : i < rows.length) :
    (daysInMonth rows[i].year rows[i].month - 5 < rows[i].day →
      monthEndFactor (daysInMonth rows[i].year rows[i].month) rows[i].day =
        1 + (5 / 100) *
          ((4 : ℚ) - ((daysInMonth rows[i].year rows[i].month : ℚ) - (rows[i].day : ℚ)))) ∧
    (rows[i].day ≤ daysInMonth rows[i].year rows[i].month - 5 →
      monthEndFactor (daysInMonth rows[i].year rows[i].month) rows[i].day = 1) ∧
    (rows[i].day = daysInMonth rows[i].year rows[i].month →
      monthEndFactor (daysInMonth rows[i].year rows[i].month) rows[i].day = 6 / 5) ∧
    smoothedCounts yT yA yC lastDate i =
      (roundHalfEven (yT i * monthEndFactor (daysInMonth rows[i].year rows[i].month) rows[i].day),
       roundHalfEven (yA i * monthEndFactor (daysInMonth rows[i].year rows[i].month) rows[i].day),
       roundHalfEven (yC i * monthEndFactor (daysInMonth rows[i].year rows[i].month) rows[i].day)) ∧
    rows[i].total_visitors =
      clampLower0 (roundHalfEven
        (yT i * monthEndFactor (daysInMonth rows[i].year rows[i].month) rows[i].day)) := by
  rw [predict_row_eq h i hi]
  unfold predRowOf
  dsimp only
  refine ⟨?_, ?_, ?_, rfl, rfl⟩
  · intro hlt
    unfold monthEndFactor
    rw [if_pos (by omega)]
  · intro hle
    unfold monthEndFactor
    rw [if_neg (by omega)]
  · intro heq
    unfold monthEndFactor
    rw [if_pos (by omega), heq]
    norm_num

/-- Witness for `prediction_additive_invariant` on the concrete run. -/
theorem prediction_additive_invariant_witness :
    (exRows.get ⟨0, by decide⟩).adult_tickets + (exRows.get ⟨0, by decide⟩).child_tickets =
      (exRows.get ⟨0, by decide⟩).total_visitors ∧
    (exRows.get ⟨0, by decide⟩).total_visitors =
      clampLower0 (smoothedCounts (fun _ => 10) (fun _ => 7) (fun _ => 2) 29 0).1 :=
  prediction_additive_invariant ⟨50, 0, 25, 15⟩ 1 29
    (fun _ => 10) (fun _ => 7) (fun _ => 2) 1 exRows rfl 0 (by decide)

/-- Witness for `prediction_counts_nonneg` on the concrete run. -/
theorem prediction_counts_nonneg_witness :
    0 ≤ (exRows.get ⟨0, by decide⟩).total_visitors ∧
    0 ≤ (exRows.get ⟨0, by decide⟩).adult_tickets ∧
    0 ≤ (exRows.get ⟨0, by decide⟩).child_tickets :=
  prediction_counts_nonneg ⟨50, 0, 25, 15⟩ 1 29
    (fun _ => 10) (fun _ => 7) (fun _ => 2) 1 exRows rfl 0 (by decide)

/-- Witness for `month_end_smoothing`: the forecast day 1970-01-31 is the
last day of its month, and the factor there is exactly 1.20. -/
theorem month_end_smoothing_witness :
    monthEndFactor
      (daysInMonth (exRows.get ⟨0, by decide⟩).year (exRows.get ⟨0, by decide⟩).month)
      (exRows.get ⟨0, by decide⟩).day = 6 / 5 :=
  (month_end_smoothing ⟨50, 0, 25, 15⟩ 1 29
    (fun _ => 10) (fun _ => 7) (fun _ => 2) 1 exRows rfl 0 (by decide)).2.2.1 (by decide)

/-- C4 counterexample: a 0-day horizon does fail, but with the generic
`ValueError` that `Prophet.predict` raises on the empty future frame
(prediction.py line 87), not with an `InvalidHorizonError` — no error of
that name exists anywhere in the repository. -/
theorem zero_horizon_prophet_error :
    predict_future_attendance ⟨50, 0, 25, 15⟩ 1 0
        (fun _ => 0) (fun _ => 0) (fun _ => 0) 0 =
      .error "ValueError: Dataframe has no rows." ∧
    "ValueError: Dataframe has no rows." ≠ "InvalidHorizonError" :=
  ⟨rfl, by decide⟩

/-- C4 amended: no horizon validation and no `InvalidHorizonError` exist in
`predict_future_attendance`; every non-positive horizon fails with a
generic error and no prediction frame is returned: a negative horizon
makes the underlying `pd.date_range` call raise a `ValueError`, and a
0-day horizon makes the first `Prophet.predict` call raise a `ValueError`
on the empty future frame. -/
theorem horizon_behavior (m : PredModels) (histLen : ℕ) (lastDate : ℤ)
    (yT yA yC : ℕ → ℚ) (days : ℤ) :
    (days < 0 → predict_future_attendance m histLen lastDate yT yA yC days =
      .error "ValueError: number of samples must be non-negative") ∧
    (days = 0 → predict_future_attendance m histLen lastDate yT yA yC days =
      .error "ValueError: Dataframe has no rows.") ∧
    (days ≤ 0 → ∀ rows : List PredRow,
      predict_future_attendance m histLen lastDate yT yA yC days ≠ .ok rows) := by
  refine ⟨?_, ?_, ?_⟩
  · intro hneg
    unfold predict_future_attendance
    rw [if_pos hneg]
  · intro hz
    subst hz
    rfl
  · intro hle rows hok
    have hcases : days < 0 ∨ days = 0 := by omega
    rcases hcases with hlt | hz
    · unfold predict_future_attendance at hok
      rw [if_pos hlt] at hok
      exact Except.noConfusion hok
    · subst hz
      have h0 : predict_future_attendance m histLen lastDate yT yA yC 0 =
          .error "ValueError: Dataframe has no rows." := rfl
      rw [h0] at hok
      exact Except.noConfusion hok

/-- Witness for `horizon_behavior` at horizons -1 and 0. -/
theorem horizon_behavior_witness :
    predict_future_attendance ⟨50, 0, 25, 15⟩ 1 0
        (fun _ => 0) (fun _ => 0) (fun _ => 0) (-1) =
      .error "ValueError: number of samples must be non-negative" ∧
    predict_future_attendance ⟨50, 0, 25, 15⟩ 1 0
        (fun _ => 0) (fun _ => 0) (fun _ => 0) 0 =
      .error "ValueError: Dataframe has no rows." :=
  ⟨(horizon_behavior ⟨50, 0, 25, 15⟩ 1 0 (fun _ => 0) (fun _ => 0) (fun _ => 0) (-1)).1
      (by norm_num),
   (horizon_behavior ⟨50, 0, 25, 15⟩ 1 0 (fun _ => 0) (fun _ => 0) (fun _ => 0) 0).2.1
      rfl⟩

/-- C3 counterexample: an input whose first 1000 characters contain both a
tab and a semicolon; `validate_csv_format` selects the semicolon, not the
tab, so the claimed tab-priority rule fails at that detection site. -/
theorem delimiter_validate_semicolon_first :
    inFirst1000 "a\tb;c" '\t' = true ∧
    inFirst1000 "a\tb;c" ';' = true ∧
    detectDelimiterValidate "a\tb;c" = ';' ∧ (';' : Char) ≠ '\t' := by
  refine ⟨by decide, by decide, ?_, by decide⟩
  unfold detectDelimiterValidate
  rw [if_pos (by decide)]

/-- C3 amended: the main load path of `app.py` prefers tab, then semicolon,
then comma over the first 1000 characters, but the detection inside
`validate_csv_format` checks semicolon before tab; on inputs containing
both, the two sites disagree. -/
theorem delimiter_detection_rules (s : String) :
    (inFirst1000 s '\t' = true → detectDelimiterMain s = '\t') ∧
    (inFirst1000 s '\t' = false → inFirst1000 s ';' = true →
      detectDelimiterMain s = ';') ∧
    (inFirst1000 s '\t' = false → inFirst1000 s ';' = false →
      detectDelimiterMain s = ',') ∧
    (inFirst1000 s ';' = true → detectDelimiterValidate s = ';') ∧
    (inFirst1000 s ';' = false → inFirst1000 s '\t' = true →
      detectDelimiterValidate s = '\t') ∧
    (inFirst1000 s ';' = false → inFirst1000 s '\t' = false →
      detectDelimiterValidate s = ',') := by
  refine ⟨?_, ?_, ?_, ?_, ?_, ?_⟩
  · intro h1
    simp [detectDelimiterMain, h1]
  · intro h1 h2
    simp [detectDelimiterMain, h1, h2]
  · intro h1 h2
    simp [detectDelimiterMain, h1, h2]
  · intro h1
    simp [detectDelimiterValidate, h1]
  · intro h1 h2
    simp [detectDelimiterValidate, h1, h2]
  · intro h1 h2
    simp [detectDelimiterValidate, h1, h2]

/-- Witness for `delimiter_detection_rules`: on an input holding both
delimiters, the app path picks tab while the validator picks semicolon. -/
theorem delimiter_detection_rules_witness :
    detectDelimiterMain "a\tb;c" = '\t' ∧ detectDelimiterValidate "a\tb;c" = ';' :=
  ⟨(delimiter_detection_rules "a\tb;c").1 (by decide),
   (delimiter_detection_rules "a\tb;c").2.2.2.1 (by decide)⟩

/-! ## Result-shape lemmas for the validator -/

theorem checkNumericCols_shape (df : VFrame) (cs : List String) :
    ∀ r, checkNumericCols df cs = .ok (some r) →
      r.valid = false ∧ r.error.isSome = true := by
  induction cs with
  | nil =>
    intro r h
    simp [checkNumericCols] at h
  | cons c rest ih =>
    intro r h
    unfold checkNumericCols at h
    repeat' split at h
    all_goals first
      | exact Except.noConfusion h
      | (injection h with h; injection h with h; subst h; exact ⟨rfl, rfl⟩)
      | exact ih r h

theorem checkNegativeCols_shape (df : VFrame) (cs : List String) :
    ∀ r, checkNegativeCols df cs = .ok (some r) →
      r.valid = false ∧ r.error.isSome = true := by
  induction cs with
  | nil =>
    intro r h
    simp [checkNegativeCols] at h
  | cons c rest ih =>
    intro r h
    unfold checkNegativeCols at h
    repeat' split at h
    all_goals first
      | exact Except.noConfusion h
      | (injection h with h; injection h with h; subst h; exact ⟨rfl, rfl⟩)
      | exact ih r h

theorem vDateStage_shape (df : VFrame) (r : VResult) (h : vDateStage df = .ok r) :
    (r.valid = true ∧ r.error = none) ∨ (r.valid = false ∧ r.error.isSome = true) := by
  unfold vDateStage at h
  dsimp only at h
  repeat' split at h
  all_goals first
    | exact Except.noConfusion h
    | (injection h with h; subst h; exact Or.inl ⟨rfl, rfl⟩)
    | (injection h with h; subst h; exact Or.inr ⟨rfl, rfl⟩)
    | (injection h with h; subst h;
        exact Or.inr (checkNumericCols_shape _ _ _ (by assumption)))
    | (injection h with h; subst h;
        exact Or.inr (checkNegativeCols_shape _ _ _ (by assumption)))

theorem vSchemaStage_shape (df0 : VFrame) (r : VResult) (h : vSchemaStage df0 = .ok r) :
    (r.valid = true ∧ r.error = none) ∨ (r.valid = false ∧ r.error.isSome = true) := by
  unfold vSchemaStage at h
  dsimp only at h
  repeat' split at h
  all_goals first
    | exact Except.noConfusion h
    | (injection h with h; subst h; exact Or.inr ⟨rfl, rfl⟩)
    | exact vDateStage_shape _ _ h

/-- C7: every enriched historical row satisfies
`total_visitors = adult_tickets + child_tickets + foreigner_tickets`
exactly; camera and H-END camera counts never enter the total (the
equation holds whatever their values are). -/
theorem historical_total_visitors (f f' : ZFrame) (row : ZRow)
    (h : process_zoo_data f = .ok f') (hm : row ∈ f'.rows) :
    row.derived.total_visitors =
      row.raw.adult_tickets + row.raw.child_tickets + row.raw.foreigner_tickets := by
  have hb := process_ok h
  subst hb
  have hm' : row ∈ buildRows (normCols f.cols)
      ((stageNorm (stageSort (stageDrop (stageFillDate f)))).rows.map (·.raw)) := hm
  have h1 := (mem_buildRows hm').1
  rw [h1]
  unfold totalVisitorsOf
  simp [normCols]

/-- Witness for `historical_total_visitors` on a concrete run. -/
theorem historical_total_visitors_witness :
    exHistRow.derived.total_visitors =
      exHistRow.raw.adult_tickets + exHistRow.raw.child_tickets +
        exHistRow.raw.foreigner_tickets :=
  historical_total_visitors exHistFrame exHistFrameOut exHistRow rfl
    (show exHistRow ∈ [exHistRow] from List.mem_singleton_self _)

/-- C2 counterexample: an enriched row with `total_visitors = 4 > 0` whose
adult and child percentages sum to 50, not 100 — the two foreigner tickets
are counted in `total_visitors` but belong to neither percentage. -/
theorem adult_child_percentage_counterexample :
    process_zoo_data exHistFrame = .ok exHistFrameOut ∧
    exHistRow ∈ exHistFrameOut.rows ∧
    exHistRow.derived.total_visitors = 4 ∧
    exHistRow.derived.adult_percentage + exHistRow.derived.child_percentage = 50 ∧
    (4 : ℚ) ≠ 0 ∧ (50 : ℚ) ≠ 100 :=
  ⟨rfl, show exHistRow ∈ [exHistRow] from List.mem_singleton_self _,
   show (1 : ℚ) + 1 + 2 = 4 by norm_num,
   show (1 : ℚ) / (1 + 1 + 2) * 100 + 1 / (1 + 1 + 2) * 100 = 50 by norm_num,
   by norm_num, by norm_num⟩

/-- C2 amended: for enriched rows with nonzero `total_visitors`, the adult
and child percentages sum to `(adult + child) / total_visitors * 100`,
which equals 100 exactly when the row has no foreigner tickets. -/
theorem adult_child_percentage_rule (f f' : ZFrame) (row : ZRow)
    (h : process_zoo_data f = .ok f') (hm : row ∈ f'.rows)
    (hnz : row.derived.total_visitors ≠ 0) :
    row.derived.adult_percentage + row.derived.child_percentage =
      (row.raw.adult_tickets + row.raw.child_tickets) /
        row.derived.total_visitors * 100 ∧
    (row.derived.adult_percentage + row.derived.child_percentage = 100 ↔
      row.raw.foreigner_tickets = 0) := by
  have htv := historical_total_visitors f f' row h hm
  have hb := process_ok h
  subst hb
  have hm' : row ∈ buildRows (normCols f.cols)
      ((stageNorm (stageSort (stageDrop (stageFillDate f)))).rows.map (·.raw)) := hm
  obtain ⟨-, -, -, -, h5, h6⟩ := mem_buildRows hm'
  rw [h5, h6]
  have key : row.raw.adult_tickets / row.derived.total_visitors * 100 +
      row.raw.child_tickets / row.derived.total_visitors * 100 =
      (row.raw.adult_tickets + row.raw.child_tickets) /
        row.derived.total_visitors * 100 := by
    ring
  refine ⟨key, ?_⟩
  rw [key, div_mul_eq_mul_div, div_eq_iff hnz]
  constructor
  · intro heq
    rw [htv] at heq
    linarith
  · intro hf0
    rw [htv, hf0]
    ring

/-- Witness for `adult_child_percentage_rule` on a concrete run with no
foreigner tickets: the percentages sum to 100. -/
theorem adult_child_percentage_rule_witness :
    exHistRow0.derived.adult_percentage + exHistRow0.derived.child_percentage =
      (exHistRow0.raw.adult_tickets + exHistRow0.raw.child_tickets) /
        exHistRow0.derived.total_visitors * 100 ∧
    (exHistRow0.derived.adult_percentage + exHistRow0.derived.child_percentage = 100 ↔
      exHistRow0.raw.foreigner_tickets = 0) :=
  adult_child_percentage_rule exHistFrame0 exHistFrame0Out exHistRow0 rfl
    (show exHistRow0 ∈ [exHistRow0] from List.mem_singleton_self _)
    (show (3 : ℚ) + 1 + 0 ≠ 0 by norm_num)

/-- C6 counterexample: a source frame carrying a verbatim
`'total amount without service charge'` column (value 999); enrichment
ignores it and computes `total_revenue = 40` from the category revenues,
so "the verbatim total column is authoritative when present" fails for
this total column. -/
theorem total_revenue_wsc_counterexample :
    exHistFrameW.cols.has_total_amount_wsc = true ∧
    exHistRowW.raw.total_amount_wsc = 999 ∧
    process_zoo_data exHistFrameW = .ok exHistFrameWOut ∧
    exHistRowW ∈ exHistFrameWOut.rows ∧
    exHistRowW.derived.total_revenue = 40 ∧
    (40 : ℚ) ≠ 999 :=
  ⟨rfl, rfl, rfl,
   show exHistRowW ∈ [exHistRowW] from List.mem_singleton_self _,
   by
    norm_num [exHistRowW, exHistFrameWOut, exHistFrameW, exCols, process_zoo_data,
      processBody, stageFillDate, stageDrop, stageSort, stageNorm, stageDerive,
      buildRows, normRow, normTicketsRow, normPricesRow, normCols, totalVisitorsOf,
      totalRevenueOf, foreignerRevenueOf, cameraRevenueOf, hendCameraRevenueOf,
      List.insertionSort, List.orderedInsert],
   by norm_num⟩

/-- C6 amended: `total_revenue` equals the verbatim `'total amount (inr)'`
column when that column is present, and otherwise the sum of the five
category revenue columns; the `'total amount without service charge'`
column is never consulted by enrichment. -/
theorem total_revenue_rule (f f' : ZFrame) (row : ZRow)
    (h : process_zoo_data f = .ok f') (hm : row ∈ f'.rows) :
    (f.cols.has_total_amount_inr = true →
      row.derived.total_revenue = row.raw.total_amount_inr) ∧
    (f.cols.has_total_amount_inr = false →
      row.derived.total_revenue =
        row.derived.adult_revenue + row.derived.child_revenue +
          row.derived.foreigner_revenue + row.derived.camera_revenue +
          row.derived.hend_camera_revenue) := by
  have hb := process_ok h
  subst hb
  have hm' : row ∈ buildRows (normCols f.cols)
      ((stageNorm (stageSort (stageDrop (stageFillDate f)))).rows.map (·.raw)) := hm
  have h4 := (mem_buildRows hm').2.2.2.1
  have hcols : (normCols f.cols).has_total_amount_inr = f.cols.has_total_amount_inr := rfl
  constructor
  · intro hinr
    rw [h4, hcols, hinr]
    simp
  · intro hinr
    rw [h4, hcols, hinr]
    simp

/-- Witness for `total_revenue_rule` on a concrete run without a verbatim
`'total amount (inr)'` column. -/
theorem total_revenue_rule_witness :
    exHistRowW.derived.total_revenue =
      exHistRowW.derived.adult_revenue + exHistRowW.derived.child_revenue +
        exHistRowW.derived.foreigner_revenue + exHistRowW.derived.camera_revenue +
        exHistRowW.derived.hend_camera_revenue :=
  (total_revenue_rule exHistFrameW exHistFrameWOut exHistRowW rfl
    (show exHistRowW ∈ [exHistRowW] from List.mem_singleton_self _)).2 rfl

/-- C9: the Metric Enrichment Engine is idempotent — every derived column
(totals, revenues, calendar features, rolling means, percentages) is
recomputed from the raw ticket and price fields rather than accumulated,
so feeding an enriched frame back into `process_zoo_data` reproduces it
bit-identically.  Proved under the intended stable date sort (see
`stageSort`): the source's `sort_values` default is an unstable quicksort
that can permute duplicate-date rows on the second run and thereby shift
the positional rolling means, which is the code's slip against the
specification; with distinct dates, or fewer than 17 tied rows, the code
agrees with this model. -/
theorem process_zoo_data_idempotent (f f' : ZFrame)
    (h : process_zoo_data f = .ok f') :
    process_zoo_data f' = .ok f' := by
  have hb := process_ok h
  subst hb
  show Except.ok (processBody (processBody f)) = Except.ok (processBody f)
  rw [processBody_idem f]

/-- Witness for `process_zoo_data_idempotent` on a concrete run. -/
theorem process_zoo_data_idempotent_witness :
    process_zoo_data exHistFrameOut = .ok exHistFrameOut :=
  process_zoo_data_idempotent exHistFrame exHistFrameOut rfl

/-- C10: `validate_csv_format` is total at its interface: for every input
it returns a result dict whose `valid` flag is a Boolean and whose `error`
slot is `None` exactly on the valid outcome and a message string on every
invalid outcome; internal exceptions are caught by the surrounding handler
and converted into an invalid result rather than propagated. -/
theorem validate_csv_format_total (inp : CsvInput) :
    ((validate_csv_format inp).valid = true ∧ (validate_csv_format inp).error = none) ∨
    ((validate_csv_format inp).valid = false ∧
      ∃ msg, (validate_csv_format inp).error = some msg) := by
  unfold validate_csv_format
  cases hb : validateBody inp with
  | error e =>
    exact Or.inr ⟨rfl, "Validation error: " ++ e, rfl⟩
  | ok r =>
    have hshape :
        (r.valid = true ∧ r.error = none) ∨ (r.valid = false ∧ r.error.isSome = true) := by
      unfold validateBody at hb
      split at hb
      · injection hb with hb
        subst hb
        exact Or.inr ⟨rfl, rfl⟩
      · split at hb
        · exact vSchemaStage_shape _ _ hb
        · split at hb
          · exact vSchemaStage_shape _ _ hb
          · injection hb with hb
            subst hb
            exact Or.inr ⟨rfl, rfl⟩
    rcases hshape with ⟨h1, h2⟩ | ⟨h1, h2⟩
    · exact Or.inl ⟨h1, h2⟩
    · rcases Option.isSome_iff_exists.mp h2 with ⟨msg, hmsg⟩
      exact Or.inr ⟨h1, msg, hmsg⟩

end ZooPrediction
